import Mathlib

/-!
Shallow embedding of the SSE bridge of the monorepo-template repository.

Two route handlers form the core:

* the stream-open adapter (`GET` in `src/apps/dashboard/src/routes/api.sse.ts`):
  it builds a synthetic response sink, constructs an `SSEServerTransport`
  bound to that sink, registers the transport in the process-wide `transports`
  registry, wires a close callback through the sink's `on` subscription
  (which invokes the callback immediately when the event name is `"close"`),
  awaits `server.connect(transport)` and finally returns a `Response` built
  from the sink's captured status, headers and accumulated body;

* the message-delivery adapter (`POST` in the `/api/messages` route):
  it decodes the request body as JSON (outside any try/catch), looks the
  `sessionId` query parameter up in `transports`, and either forwards the
  decoded payload to `transport.handleMessage` (200 on success, 500 when the
  handler rejects) or answers 404 when the session id is absent.

The protocol SDK (`SSEServerTransport`, `server.connect`) is an external
collaborator: it is modelled by an opaque-parameter record `SdkModel` giving
the constructor outcome (a session id plus a message handler, or a thrown
error), the sequence of sink operations the handshake performs, and the
handshake outcome.  Machine effects are made explicit: each adapter returns
its HTTP outcome as `Except` (`Except.error` meaning an exception propagated
unhandled out of the handler), the registry state after the request, a list
of `handleMessage` invocations, and — for the stream-open adapter — a trace
of events (`Ev`) recording registry mutations, the suspension point at the
single `await`, and the final response, so temporal claims can be stated.
-/

/-- Session identifiers are opaque strings (generated by the SDK transport). -/
abbrev SessionId := String

/-- Header mappings, as captured by the sink's `writeHead`. -/
abbrev Headers := List (String × String)

/-- The slice of the SDK transport the adapters use: its generated session id
and its message-handling entry point (`Except.error` models a rejection). -/
structure Transport (J : Type) where
  sessionId : SessionId
  handleMessage : J → Except String Unit

/-- The process-wide `transports` registry: a mapping from session id to
transport, modelled as an association list (the source uses a plain object). -/
abbrev Registry (J : Type) := List (SessionId × Transport J)

/-- Lookup `transports[sessionId]`; `none` models `undefined`. -/
def regLookup {J : Type} (r : Registry J) (id : SessionId) : Option (Transport J) :=
  (r.find? (fun p => p.1 == id)).map (fun p => p.2)

/-- Deletion `delete transports[sessionId]`; removing an absent id is a no-op. -/
def regErase {J : Type} (r : Registry J) (id : SessionId) : Registry J :=
  r.filter (fun p => !(p.1 == id))

/-- Insertion `transports[sessionId] = transport`; overwrites any prior entry. -/
def regPut {J : Type} (r : Registry J) (id : SessionId) (t : Transport J) : Registry J :=
  (id, t) :: regErase r id

/-- The synthetic response sink's mutable state: `body`, `newHeaders` and
`newStatusCode` in the source (`let body = ''`, `{}`, `200`). -/
structure Sink where
  body : String
  newHeaders : Headers
  newStatusCode : Nat

/-- Initial sink state of each stream-open request. -/
def initSink : Sink :=
  { body := "", newHeaders := [], newStatusCode := 200 }

/-- The operations the SDK transport may perform on the sink during the
handshake: `writeHead(statusCode, headers)` and `write(data)`. -/
inductive SinkOp where
  | writeHead (statusCode : Nat) (headers : Headers)
  | write (data : String)

/-- Effect of one sink operation, exactly as the source records it:
`writeHead` overwrites the captured status and headers, `write` appends
the chunk followed by a newline (`body += data + "\n"`). -/
def applyOp (s : Sink) : SinkOp → Sink
  | SinkOp.writeHead st hs => { s with newStatusCode := st, newHeaders := hs }
  | SinkOp.write d => { s with body := s.body ++ d ++ "\n" }

/-- Events of one stream-open invocation, for temporal claims:
registry mutations, the suspension at `await server.connect`, the response
being returned, and an exception propagating out of the handler. -/
inductive Ev where
  | construct (sid : SessionId)
  | regInsert (sid : SessionId)
  | regRemove (sid : SessionId)
  | suspend
  | respond (status : Nat)
  | raise
deriving DecidableEq

/-- Boolean classifiers used to state ordering properties over traces. -/
def isConstruct : Ev → Bool
  | Ev.construct _ => true
  | _ => false

def isRegInsert : Ev → Bool
  | Ev.regInsert _ => true
  | _ => false

def isRegRemove : Ev → Bool
  | Ev.regRemove _ => true
  | _ => false

def isSuspend : Ev → Bool
  | Ev.suspend => true
  | _ => false

def isRespond : Ev → Bool
  | Ev.respond _ => true
  | _ => false

/-- Index of the first event satisfying `p`, or `none`. -/
def idxOf (p : Ev → Bool) : List Ev → Option Nat
  | [] => none
  | e :: rest => if p e then some 0 else (idxOf p rest).map (fun n => n + 1)

/-- The sink's event subscription, exactly as the source writes it:
`on: (event, callback) => { if (event === 'close') { callback() } }` —
the callback fires synchronously, immediately, iff the event is `"close"`.
The callback here returns the new registry plus the trace events it emits. -/
def respOn {J : Type} (event : String) (cb : Registry J → Registry J × List Ev)
    (r : Registry J) : Registry J × List Ev :=
  if event = "close" then cb r else (r, [])

/-- The close callback registered by the route:
`resp.on('close', () => { delete transports[transport.sessionId] })`. -/
def closeCb {J : Type} (sid : SessionId) (r : Registry J) : Registry J × List Ev :=
  (regErase r sid, [Ev.regRemove sid])

/-- Opaque model of the external SDK as seen through one stream-open request:
the constructor outcome (`SSEServerTransport` may throw), the sink operations
the handshake performs, and the outcome of `server.connect`. -/
structure SdkModel (J : Type) where
  construct : Except String (Transport J)
  connectOps : List SinkOp
  connectResult : Except String Unit

/-- Outcome of one stream-open request: the HTTP result (`Except.ok` carries
status, headers and body of the `Response`; `Except.error` means the
exception propagated out of the handler, which has no try/catch), and the
registry after the request. -/
structure GetOutcome (J : Type) where
  result : Except String (Nat × Headers × String)
  transports : Registry J

/-- The stream-open adapter (`GET` of `api.sse.ts`), step for step:
construct the transport (propagating a constructor throw); insert
`(sessionId, transport)` into the registry; subscribe the delete callback via
`resp.on('close', …)`, which fires it inline; suspend at
`await server.connect(transport)` (propagating a rejection); finally build
the `Response` from the sink's captured status, headers and body.
Returns the event trace together with the outcome. -/
def handleGet {J : Type} (reg : Registry J) (sdk : SdkModel J) :
    List Ev × GetOutcome J :=
  match sdk.construct with
  | Except.error e => ([Ev.raise], ⟨Except.error e, reg⟩)
  | Except.ok t =>
    let reg1 := regPut reg t.sessionId t
    let pr := respOn "close" (closeCb t.sessionId) reg1
    let evs := [Ev.construct t.sessionId, Ev.regInsert t.sessionId] ++ pr.2 ++ [Ev.suspend]
    match sdk.connectResult with
    | Except.error e => (evs ++ [Ev.raise], ⟨Except.error e, pr.1⟩)
    | Except.ok _ =>
      let sink := sdk.connectOps.foldl applyOp initSink
      (evs ++ [Ev.respond sink.newStatusCode],
       ⟨Except.ok (sink.newStatusCode, sink.newHeaders, sink.body), pr.1⟩)

/-- Outcome of one message-delivery request: the HTTP result (`Except.ok`
carries status and body, `none` body modelling `new Response(null, …)`;
`Except.error` means the exception propagated out of the handler), the list
of `handleMessage` invocations performed (session id and payload), and the
registry after the request. -/
structure PostOutcome (J : Type) where
  result : Except String (Nat × Option String)
  calls : List (SessionId × J)
  transports : Registry J

/-- The message-delivery adapter (`POST` of the `/api/messages` route):
`await request.json()` is outside the try block, so a body that does not
decode (`decoded = none`) propagates as an exception; otherwise the session
id is looked up, and a found transport's `handleMessage` is invoked once —
200 on success, 500 when it rejects (the catch never touches the registry) —
while an absent id answers 404 without invoking any transport method. -/
def handlePost {J : Type} (reg : Registry J) (decoded : Option J)
    (sessionId : SessionId) : PostOutcome J :=
  match decoded with
  | none => ⟨Except.error "invalid JSON body", [], reg⟩
  | some body =>
    match regLookup reg sessionId with
    | some transport =>
      match transport.handleMessage body with
      | Except.ok _ => ⟨Except.ok (200, none), [(sessionId, body)], reg⟩
      | Except.error _ => ⟨Except.ok (500, none), [(sessionId, body)], reg⟩
    | none => ⟨Except.ok (404, none), [], reg⟩

/-! ### Spec-side characterizations of the sink (for the refinement claim C7)

These definitions follow the specification's words — "the written chunks in
write order concatenated with newline separators", "the status code captured
by the sink's last writeHead call, or 200 if writeHead was never called",
"the captured header mapping, or empty" — to be compared against the sink
state the source actually computes. -/

/-- The chunks passed to `write`, in order. -/
def writtenChunks : List SinkOp → List String
  | [] => []
  | SinkOp.write d :: rest => d :: writtenChunks rest
  | SinkOp.writeHead _ _ :: rest => writtenChunks rest

/-- Status and headers of the last `writeHead` call, if any. -/
def lastHead : List SinkOp → Option (Nat × Headers)
  | [] => none
  | op :: rest =>
    match lastHead rest with
    | some p => some p
    | none =>
      match op with
      | SinkOp.writeHead st hs => some (st, hs)
      | SinkOp.write _ => none

/-- Spec-side status: the last captured status code, or 200 if never set. -/
def specStatus (ops : List SinkOp) : Nat :=
  match lastHead ops with
  | some p => p.1
  | none => 200

/-- Spec-side headers: the last captured header mapping, or empty. -/
def specHeaders (ops : List SinkOp) : Headers :=
  match lastHead ops with
  | some p => p.2
  | none => []

/-- Newline-terminated concatenation: each chunk is followed by a newline.
This is what the source's `body += data + "\n"` accumulates; it differs from
a newline-separated join by a trailing newline whenever any chunk was
written. -/
def chunkConcat : List String → String
  | [] => ""
  | c :: cs => c ++ "\n" ++ chunkConcat cs

/-- The claim that an outcome of the stream-open adapter is a 5xx-class HTTP
response (used to state claim C8 at a concrete input). -/
def respondsWith5xx {J : Type} (o : GetOutcome J) : Prop :=
  ∃ st hs b, o.result = Except.ok (st, hs, b) ∧ 500 ≤ st ∧ st ≤ 599

/-- The claim that an outcome of the message-delivery adapter is an HTTP
status-code response rather than a propagated exception (claim C9). -/
def translatedToStatus {J : Type} (o : PostOutcome J) : Prop :=
  ∃ st b, o.result = Except.ok (st, b)

/-! ### Concrete fixtures for witnesses and counterexamples -/

/-- A transport whose message handler always succeeds. -/
def tOk : Transport Nat :=
  { sessionId := "sid-1", handleMessage := fun _ => Except.ok () }

/-- A transport whose message handler always rejects. -/
def tBad : Transport Nat :=
  { sessionId := "sid-2", handleMessage := fun _ => Except.error "handler rejected" }

/-- An SDK model for a successful stream-open: construction succeeds, the
handshake writes a header and one chunk, and `server.connect` resolves. -/
def sdkOk : SdkModel Nat :=
  { construct := Except.ok tOk
    connectOps := [SinkOp.writeHead 200 [("Content-Type", "text/event-stream")],
                   SinkOp.write "event: endpoint"]
    connectResult := Except.ok () }

/-- An SDK model whose handshake writes a single chunk `"a"` (exhibiting the
trailing newline of the accumulated body, for claim C7). -/
def sdkOneWrite : SdkModel Nat :=
  { construct := Except.ok tOk
    connectOps := [SinkOp.write "a"]
    connectResult := Except.ok () }

/-- An SDK model whose `server.connect` rejects (for claim C8). -/
def sdkConnectFail : SdkModel Nat :=
  { construct := Except.ok tOk
    connectOps := []
    connectResult := Except.error "connect failed" }

/-- An SDK model whose transport constructor throws (for claim C8). -/
def sdkCtorFail : SdkModel Nat :=
  { construct := Except.error "constructor threw"
    connectOps := []
    connectResult := Except.ok () }

/-! ### Helper lemmas -/

/-- After `delete transports[id]`, looking up `id` yields `undefined`. -/
theorem regLookup_erase {J : Type} (r : Registry J) (i : SessionId) :
    regLookup (regErase r i) i = none := by
  induction r with
  | nil => rfl
  | cons p r ih =>
    cases h : p.1 == i with
    | true => simpa [regErase, List.filter_cons, h] using ih
    | false =>
      simp only [regErase, List.filter_cons, h, Bool.not_false, if_true] at ih ⊢
      simp only [regLookup, List.find?_cons, h] at ih ⊢
      exact ih

/-- The accumulated sink body is the newline-terminated concatenation of the
written chunks, appended to whatever the body held before. -/
theorem sink_foldl_body (ops : List SinkOp) (s : Sink) :
    (ops.foldl applyOp s).body = s.body ++ chunkConcat (writtenChunks ops) := by
  induction ops generalizing s with
  | nil => simp [writtenChunks, chunkConcat]
  | cons op rest ih =>
    cases op with
    | writeHead st hs => simp [List.foldl_cons, applyOp, ih, writtenChunks]
    | write d =>
      simp [List.foldl_cons, applyOp, ih, writtenChunks, chunkConcat,
        String.append_assoc]

/-- The sink's captured status code is that of the last `writeHead`, or the
initial one when no `writeHead` occurred. -/
theorem sink_foldl_status (ops : List SinkOp) (s : Sink) :
    (ops.foldl applyOp s).newStatusCode =
      ((lastHead ops).map (fun p => p.1)).getD s.newStatusCode := by
  induction ops generalizing s with
  | nil => rfl
  | cons op rest ih =>
    cases op with
    | writeHead st hs =>
      simp only [List.foldl_cons, ih, lastHead]
      cases lastHead rest <;> simp [applyOp]
    | write d =>
      simp only [List.foldl_cons, ih, lastHead]
      cases lastHead rest <;> simp [applyOp]

/-- The sink's captured headers are those of the last `writeHead`, or the
initial ones when no `writeHead` occurred. -/
theorem sink_foldl_headers (ops : List SinkOp) (s : Sink) :
    (ops.foldl applyOp s).newHeaders =
      ((lastHead ops).map (fun p => p.2)).getD s.newHeaders := by
  induction ops generalizing s with
  | nil => rfl
  | cons op rest ih =>
    cases op with
    | writeHead st hs =>
      simp only [List.foldl_cons, ih, lastHead]
      cases lastHead rest <;> simp [applyOp]
    | write d =>
      simp only [List.foldl_cons, ih, lastHead]
      cases lastHead rest <;> simp [applyOp]

/-- Starting from the initial sink, the captured status is `specStatus`. -/
theorem sink_status_spec (ops : List SinkOp) :
    (ops.foldl applyOp initSink).newStatusCode = specStatus ops := by
  rw [sink_foldl_status]
  unfold specStatus
  cases lastHead ops <;> rfl

/-- Starting from the initial sink, the captured headers are `specHeaders`. -/
theorem sink_headers_spec (ops : List SinkOp) :
    (ops.foldl applyOp initSink).newHeaders = specHeaders ops := by
  rw [sink_foldl_headers]
  unfold specHeaders
  cases lastHead ops <;> rfl

/-- Starting from the initial sink, the body is the newline-terminated
concatenation of the written chunks. -/
theorem sink_body_spec (ops : List SinkOp) :
    (ops.foldl applyOp initSink).body = chunkConcat (writtenChunks ops) := by
  rw [sink_foldl_body]
  exact String.empty_append _

/-! ### Claims about the message-delivery adapter -/

/-- **C1.** For every message-delivery request whose session id is present in
the registry and whose payload decodes as JSON, the transport's
`handleMessage` is invoked exactly once with the decoded payload, and if the
handler completes without rejecting, the response has status 200 and an
empty body. -/
theorem C1_delivery_invokes_handler_once {J : Type} (reg : Registry J) (b : J)
    (sid : SessionId) (t : Transport J) (h : regLookup reg sid = some t) :
    (handlePost reg (some b) sid).calls = [(sid, b)] ∧
    (∀ u, t.handleMessage b = Except.ok u →
      (handlePost reg (some b) sid).result = Except.ok (200, none)) := by
  simp only [handlePost, h]
  cases hm : t.handleMessage b with
  | ok u => simp
  | error e => simp [hm]

/-- Witness for C1: concrete one-entry registry, payload `7`, succeeding
handler. -/
theorem C1_witness :
    regLookup [(("s1" : SessionId), tOk)] "s1" = some tOk ∧
    (handlePost [(("s1" : SessionId), tOk)] (some 7) "s1").calls = [("s1", 7)] ∧
    (handlePost [(("s1" : SessionId), tOk)] (some 7) "s1").result =
      Except.ok (200, none) :=
  ⟨rfl, (C1_delivery_invokes_handler_once [("s1", tOk)] 7 "s1" tOk rfl).1,
    (C1_delivery_invokes_handler_once [("s1", tOk)] 7 "s1" tOk rfl).2 () rfl⟩

/-- **C2.** For every message-delivery request whose registered transport's
message handler rejects, the response has status 500 and an empty body, and
the session id is still present in the registry afterward (the registry
entry is not removed on this path). -/
theorem C2_handler_rejection_isolated {J : Type} (reg : Registry J) (b : J)
    (sid : SessionId) (t : Transport J) (e : String)
    (h : regLookup reg sid = some t) (hm : t.handleMessage b = Except.error e) :
    (handlePost reg (some b) sid).result = Except.ok (500, none) ∧
    regLookup (handlePost reg (some b) sid).transports sid = some t := by
  simp [handlePost, h, hm]

/-- Witness for C2: concrete registry whose handler always rejects. -/
theorem C2_witness :
    regLookup [(("s2" : SessionId), tBad)] "s2" = some tBad ∧
    tBad.handleMessage 3 = Except.error "handler rejected" ∧
    (handlePost [(("s2" : SessionId), tBad)] (some 3) "s2").result =
      Except.ok (500, none) ∧
    regLookup (handlePost [(("s2" : SessionId), tBad)] (some 3) "s2").transports
      "s2" = some tBad :=
  ⟨rfl, rfl,
    (C2_handler_rejection_isolated [("s2", tBad)] 3 "s2" tBad "handler rejected"
      rfl rfl).1,
    (C2_handler_rejection_isolated [("s2", tBad)] 3 "s2" tBad "handler rejected"
      rfl rfl).2⟩

/-- **C4.** For every message-delivery request whose (JSON-decodable, per the
adapter's input contract) payload references a session id absent from the
registry, the response has status 404 with no body, and no transport method
is invoked. -/
theorem C4_absent_session_404 {J : Type} (reg : Registry J) (b : J)
    (sid : SessionId) (h : regLookup reg sid = none) :
    (handlePost reg (some b) sid).result = Except.ok (404, none) ∧
    (handlePost reg (some b) sid).calls = [] := by
  simp [handlePost, h]

/-- Witness for C4: empty registry, any id is absent. -/
theorem C4_witness :
    regLookup ([] : Registry Nat) "ghost" = none ∧
    (handlePost ([] : Registry Nat) (some 0) "ghost").result =
      Except.ok (404, none) ∧
    (handlePost ([] : Registry Nat) (some 0) "ghost").calls = [] :=
  ⟨rfl, (C4_absent_session_404 [] 0 "ghost" rfl).1,
    (C4_absent_session_404 [] 0 "ghost" rfl).2⟩

/-- **C9 (counterexample).** A message-delivery request whose body is not
JSON-decodable is not translated into an HTTP status-code response: the
decode failure (raised by `await request.json()`, which sits outside the
try block) propagates unhandled out of the adapter. -/
theorem C9_counterexample :
    ¬ translatedToStatus (handlePost ([] : Registry Nat) none "s1") := by
  rintro ⟨st, b, h⟩
  simp [handlePost] at h

/-- **C9 (amended).** For every message-delivery request whose payload
decodes as JSON, every failure is caught at the adapter boundary and
translated into an HTTP status-code response (200, 404 or 500 with empty
body); but a request whose body does not decode has its failure propagate
unhandled out of the message-delivery adapter (and stream-open failures
likewise propagate, see C8). -/
theorem C9_amended_boundary_translation {J : Type} (reg : Registry J) (b : J)
    (sid : SessionId) :
    (∃ st, (handlePost reg (some b) sid).result = Except.ok (st, none)) ∧
    (∃ e, (handlePost reg none sid).result = Except.error e) := by
  constructor
  · cases h : regLookup reg sid with
    | none => exact ⟨404, by simp [handlePost, h]⟩
    | some t =>
      cases hm : t.handleMessage b with
      | ok u => exact ⟨200, by simp [handlePost, h, hm]⟩
      | error e => exact ⟨500, by simp [handlePost, h, hm]⟩
  · exact ⟨"invalid JSON body", rfl⟩

/-- **C10.** On every outcome path of the message-delivery adapter (decode
failure, session absent, handler success, handler failure), the registry is
left exactly as it was before the request. -/
theorem C10_registry_frame {J : Type} (reg : Registry J) (decoded : Option J)
    (sid : SessionId) :
    (handlePost reg decoded sid).transports = reg := by
  unfold handlePost
  cases decoded with
  | none => rfl
  | some b =>
    cases h : regLookup reg sid with
    | none => simp [h]
    | some t => cases hm : t.handleMessage b <;> simp [h, hm]

/-! ### Claims about the stream-open adapter -/

/-- **C3.** For every stream-open request (construction and connect
succeeding, so a response is produced), the close callback fires
synchronously inline: the registry removal happens before the suspension at
`await server.connect` and before the response event, and the session id is
no longer in the registry when the response is returned. -/
theorem C3_close_before_response {J : Type} (reg : Registry J) (sdk : SdkModel J)
    (t : Transport J) (h1 : sdk.construct = Except.ok t)
    (h2 : sdk.connectResult = Except.ok ()) :
    ∃ i s j, idxOf isRegRemove (handleGet reg sdk).1 = some i ∧
      idxOf isSuspend (handleGet reg sdk).1 = some s ∧
      idxOf isRespond (handleGet reg sdk).1 = some j ∧
      i < s ∧ i < j ∧
      regLookup (handleGet reg sdk).2.transports t.sessionId = none := by
  refine ⟨2, 3, 4, ?_, ?_, ?_, by omega, by omega, ?_⟩ <;>
    simp [handleGet, h1, h2, respOn, closeCb, idxOf, isRegRemove, isSuspend,
      isRespond, isConstruct, isRegInsert, regLookup_erase]

/-- Witness for C3 at the concrete successful SDK model. -/
theorem C3_witness :
    sdkOk.construct = Except.ok tOk ∧ sdkOk.connectResult = Except.ok () ∧
    (∃ i s j, idxOf isRegRemove (handleGet ([] : Registry Nat) sdkOk).1 = some i ∧
      idxOf isSuspend (handleGet ([] : Registry Nat) sdkOk).1 = some s ∧
      idxOf isRespond (handleGet ([] : Registry Nat) sdkOk).1 = some j ∧
      i < s ∧ i < j ∧
      regLookup (handleGet ([] : Registry Nat) sdkOk).2.transports
        tOk.sessionId = none) :=
  ⟨rfl, rfl, C3_close_before_response [] sdkOk tOk rfl rfl⟩

/-- **C5.** For every stream-open request whose transport constructor
succeeds, the registry insertion is synchronous: it is the very next event
after the transport's id generation (no intervening event, in particular no
suspension), and it precedes the first suspension point (the one of
`await server.connect`). -/
theorem C5_registration_synchronous {J : Type} (reg : Registry J)
    (sdk : SdkModel J) (t : Transport J) (h1 : sdk.construct = Except.ok t) :
    ∃ c i, idxOf isConstruct (handleGet reg sdk).1 = some c ∧
      idxOf isRegInsert (handleGet reg sdk).1 = some i ∧
      i = c + 1 ∧
      ∀ s, idxOf isSuspend (handleGet reg sdk).1 = some s → i < s := by
  cases h2 : sdk.connectResult with
  | ok u =>
    refine ⟨0, 1, ?_, ?_, rfl, ?_⟩ <;>
      simp [handleGet, h1, h2, respOn, closeCb, idxOf, isRegRemove, isSuspend,
        isRespond, isConstruct, isRegInsert]
  | error e =>
    refine ⟨0, 1, ?_, ?_, rfl, ?_⟩ <;>
      simp [handleGet, h1, h2, respOn, closeCb, idxOf, isRegRemove, isSuspend,
        isRespond, isConstruct, isRegInsert]

/-- Witness for C5 at the concrete successful SDK model. -/
theorem C5_witness :
    sdkOk.construct = Except.ok tOk ∧
    (∃ c i, idxOf isConstruct (handleGet ([] : Registry Nat) sdkOk).1 = some c ∧
      idxOf isRegInsert (handleGet ([] : Registry Nat) sdkOk).1 = some i ∧
      i = c + 1 ∧
      ∀ s, idxOf isSuspend (handleGet ([] : Registry Nat) sdkOk).1 = some s →
        i < s) :=
  ⟨rfl, C5_registration_synchronous [] sdkOk tOk rfl⟩

/-- **C6.** For every stream-open invocation in which the close signal fires
(which the sink triggers whenever construction succeeds), the session id is
removed from the registry exactly once — exactly one removal event in the
trace — and it is not in the registry afterward. -/
theorem C6_removed_exactly_once {J : Type} (reg : Registry J)
    (sdk : SdkModel J) (t : Transport J) (h1 : sdk.construct = Except.ok t) :
    ((handleGet reg sdk).1.filter isRegRemove).length = 1 ∧
    regLookup (handleGet reg sdk).2.transports t.sessionId = none := by
  cases h2 : sdk.connectResult with
  | ok u =>
    constructor <;>
      simp [handleGet, h1, h2, respOn, closeCb, isRegRemove, isSuspend,
        isRespond, isConstruct, isRegInsert, regLookup_erase]
  | error e =>
    constructor <;>
      simp [handleGet, h1, h2, respOn, closeCb, isRegRemove, isSuspend,
        isRespond, isConstruct, isRegInsert, regLookup_erase]

/-- Witness for C6 at the concrete successful SDK model. -/
theorem C6_witness :
    sdkOk.construct = Except.ok tOk ∧
    ((handleGet ([] : Registry Nat) sdkOk).1.filter isRegRemove).length = 1 ∧
    regLookup (handleGet ([] : Registry Nat) sdkOk).2.transports
      tOk.sessionId = none :=
  ⟨rfl, (C6_removed_exactly_once [] sdkOk tOk rfl).1,
    (C6_removed_exactly_once [] sdkOk tOk rfl).2⟩

/-- **C7 (counterexample).** The accumulated body carries a trailing newline:
with a single written chunk `"a"` the final response body is `"a\n"`,
whereas joining the written chunks with newline *separators* gives `"a"`.
So the claim's description of the buffer as the chunks "concatenated with
newline separators" fails on the code. -/
theorem C7_counterexample :
    (handleGet ([] : Registry Nat) sdkOneWrite).2.result =
      Except.ok (200, ([] : Headers), "a\n") ∧
    String.intercalate "\n" (writtenChunks sdkOneWrite.connectOps) ≠ "a\n" := by
  constructor
  · rfl
  · decide

/-- **C7 (amended).** After the connect step resolves, the response status is
the status of the sink's last `writeHead` (200 if never called), the headers
are the captured mapping (empty if never set), and the body is the sink's
accumulated buffer, which holds the written chunks in write order each
followed by a newline (newline-terminated, so the buffer ends in a newline
whenever any chunk was written). -/
theorem C7_amended_response_from_sink {J : Type} (reg : Registry J)
    (sdk : SdkModel J) (t : Transport J) (h1 : sdk.construct = Except.ok t)
    (h2 : sdk.connectResult = Except.ok ()) :
    (handleGet reg sdk).2.result =
      Except.ok (specStatus sdk.connectOps, specHeaders sdk.connectOps,
        chunkConcat (writtenChunks sdk.connectOps)) := by
  simp [handleGet, h1, h2, sink_status_spec, sink_headers_spec, sink_body_spec]

/-- Witness for the amended C7 at the concrete successful SDK model. -/
theorem C7_amended_witness :
    sdkOk.construct = Except.ok tOk ∧ sdkOk.connectResult = Except.ok () ∧
    (handleGet ([] : Registry Nat) sdkOk).2.result =
      Except.ok (specStatus sdkOk.connectOps, specHeaders sdkOk.connectOps,
        chunkConcat (writtenChunks sdkOk.connectOps)) :=
  ⟨rfl, rfl, C7_amended_response_from_sink [] sdkOk tOk rfl rfl⟩

/-- **C8 (counterexample).** When `server.connect` rejects, the stream-open
adapter (which has no try/catch) does not respond with a 5xx-class HTTP
response: the rejection propagates unhandled out of the handler. -/
theorem C8_counterexample :
    ¬ respondsWith5xx (handleGet ([] : Registry Nat) sdkConnectFail).2 := by
  rintro ⟨st, hs, b, h, h5, _⟩
  have hres : (handleGet ([] : Registry Nat) sdkConnectFail).2.result =
      Except.error "connect failed" := rfl
  rw [hres] at h
  exact Except.noConfusion h

/-- **C8 (amended).** If transport construction fails, the error propagates
out of the stream-open adapter (no response is constructed) and the registry
is untouched; if `server.connect` fails, the error likewise propagates, and
no partial registry entry remains — not by rollback, but because the close
callback already removed the entry synchronously before connect began. -/
theorem C8_amended_failures_propagate {J : Type} (reg : Registry J)
    (sdk : SdkModel J) :
    (∀ e, sdk.construct = Except.error e →
      (handleGet reg sdk).2.result = Except.error e ∧
      (handleGet reg sdk).2.transports = reg) ∧
    (∀ t e, sdk.construct = Except.ok t →
      sdk.connectResult = Except.error e →
      (handleGet reg sdk).2.result = Except.error e ∧
      regLookup (handleGet reg sdk).2.transports t.sessionId = none) := by
  constructor
  · intro e h
    simp [handleGet, h]
  · intro t e h1 h2
    constructor <;>
      simp [handleGet, h1, h2, respOn, closeCb, regLookup_erase]

/-- Witness for the amended C8: both failure modes at concrete SDK models. -/
theorem C8_amended_witness :
    ((handleGet ([] : Registry Nat) sdkCtorFail).2.result =
        Except.error "constructor threw" ∧
      (handleGet ([] : Registry Nat) sdkCtorFail).2.transports = []) ∧
    ((handleGet ([] : Registry Nat) sdkConnectFail).2.result =
        Except.error "connect failed" ∧
      regLookup (handleGet ([] : Registry Nat) sdkConnectFail).2.transports
        tOk.sessionId = none) :=
  ⟨(C8_amended_failures_propagate [] sdkCtorFail).1 "constructor threw" rfl,
    (C8_amended_failures_propagate [] sdkConnectFail).2 tOk "connect failed"
      rfl rfl⟩
